import Mathlib

/-!
Verification development for the map generator in
scripts/generate_folium.py of the ww_phenology_demo repository.

The script is embedded shallowly: the folium / geopandas / branca objects
that the script builds are modelled as Lean structures recording exactly
the data the script puts into them, and the script itself becomes a pure
function from the data directory contents and the selected-years list to
either a Python-style error or the composed map document.  Filesystem
writes are modelled as an explicit effect trace.
-/

/-- Python values stored in geojson feature properties: the script only
ever stores integers (day-of-year columns, id) and strings (the
human-readable date columns). -/
inductive PValue where
  | int (i : Int)
  | str (s : String)
  deriving DecidableEq, Repr

/-- One row of the attribute table of a geojson input file, as read by
geopandas read_file.  The five columns are the ones the script touches:
the unique identifier column id, the two day-of-year columns and the two
human-readable date columns.  The polygon geometry is carried by every
row as well but is never inspected by the script logic modelled here, so
it is omitted from the embedding. -/
structure Row where
  id : Int
  emergence_doy : Int
  heading_doy : Int
  emergence_date : String
  heading_date : String
  deriving DecidableEq, Repr

/-- A file of the data directory: its file name (with extension) and, when
it is a geojson file, its attribute table. -/
structure DataFile where
  name : String
  rows : List Row
  deriving DecidableEq, Repr

/-- Python exceptions the script can raise: ValueError from int() on a
malformed year token, KeyError from a pandas .loc lookup, RuntimeError
from mutating an OrderedDict mid-iteration, NameError from reading a
never-bound local variable. -/
inductive PyError where
  | valueError (msg : String)
  | keyError (key : Int)
  | keyErrorStr (key : String)
  | runtimeError (msg : String)
  | nameError (msg : String)
  deriving DecidableEq, Repr

/-- A branca colormap, identified by its caption, which the script sets to
the legend_name of the choropleth it was generated for. -/
structure Colormap where
  caption : String
  deriving DecidableEq, Repr

/-- A keyed child of a folium Choropleth object.  folium gives the
GeoJson child a key starting with geo_json and the StepColormap child a
key starting with color_map; the detach loop of the script dispatches on
that key prefix, which the two constructors encode. -/
inductive ChoroChild where
  | geoJson
  | colorMap (cm : Colormap)
  deriving DecidableEq, Repr

/-- A geojson feature as folium embeds it: the top-level feature id (the
stringified dataframe index, converted back to an integer by the script)
and the properties dictionary. -/
structure Feature where
  featId : Int
  props : List (String × PValue)
  deriving DecidableEq, Repr

/-- The GeoJson child of a choropleth: its embedded feature collection and
the field list of the GeoJsonTooltip attached to it (empty until the
script adds one). -/
structure GeoJsonLayer where
  features : List Feature
  tooltipFields : List String
  deriving DecidableEq, Repr

/-- A folium Choropleth as configured by the script, with the keyword
arguments of the folium.Choropleth call and its keyed child list. -/
structure Choropleth where
  name : String
  columns : String × String
  key_on : String
  fill_color : String
  fill_opacity : Rat
  line_opacity : Rat
  lazy : Bool
  legend_name : String
  «show» : Bool
  geojson : GeoJsonLayer
  children : List ChoroChild
  deriving DecidableEq, Repr

/-- An element of the composed map document, in document order.  The
macroStyle element is the custom Terensis text-box overlay produced by
get_textbox_css; its HTML/CSS payload is never inspected by the script
logic, so the constructor carries no payload. -/
inductive Element where
  | macroStyle
  | choropleth (c : Choropleth)
  | colormap (cm : Colormap)
  | bindColormap (layerName : String) (cm : Colormap)
  | layerControl (collapsed : Bool)
  deriving DecidableEq, Repr

/-- The folium map document: base-map configuration plus the child
elements added to it, in order.  The zoom level 8 location is the pair
47, 7.5 from the source, with 7.5 rendered exactly as a rational. -/
structure MapDoc where
  location : Rat × Rat
  zoom_start : Nat
  tiles : String
  attr : String
  children : List Element
  deriving DecidableEq, Repr

/-! ## Filename handling -/

/-- Python str.split with a one-character separator, over the character
list of the string: the list of separator-free groups, with empty groups
kept, never an empty list.  This mirrors the semantics of split with an
explicit separator exactly. -/
def pyCharSplit (sep : Char) : List Char → List (List Char)
  | [] => [[]]
  | c :: cs =>
    let r := pyCharSplit sep cs
    if c = sep then [] :: r
    else
      match r with
      | [] => [[c]]
      | g :: gs => (c :: g) :: gs

/-- Python str.split with a one-character separator. -/
def pySplit (s : String) (sep : Char) : List String :=
  (pyCharSplit sep s.data).map (fun g => String.mk g)

/-- Last element of a list of strings, as Python negative indexing -1
reads it; str.split never returns an empty list, so the default is never
used on the lists this is applied to. -/
def pyLast (xs : List String) : String := xs.getLastD ("")

/-- Python str.strip with no argument: leading and trailing whitespace
characters removed. -/
def pyStripChars (cs : List Char) : List Char :=
  ((cs.dropWhile Char.isWhitespace).reverse.dropWhile Char.isWhitespace).reverse

/-- Decimal value of a nonempty all-digit character list, none
otherwise. -/
def pyDigits? : List Char → Option Nat
  | [] => none
  | cs =>
    cs.foldl (fun acc c =>
      match acc with
      | none => none
      | some n => if c.isDigit then some (n * 10 + (c.toNat - 48)) else none) (some 0)

/-- Python int() applied to a string: surrounding whitespace is stripped,
an optional single sign is allowed, and the remainder must be a nonempty
digit string.  Underscore digit grouping cannot occur here because the
argument is a split fragment that contains neither underscore nor
hyphen. -/
def pyInt? (s : String) : Option Int :=
  match pyStripChars s.data with
  | [] => none
  | c :: rest =>
    if c = '-' then (pyDigits? rest).map (fun n => -(n : Int))
    else if c = '+' then (pyDigits? rest).map (fun n => (n : Int))
    else (pyDigits? (c :: rest)).map (fun n => (n : Int))

/-- Line 162 of the script: int of fpath.stem.split on underscore, last
fragment, split on hyphen, last fragment.  A non-numeric trailing token
raises ValueError, exactly as int() does. -/
def parseYear (stem : String) : Except PyError Int :=
  let tok := pyLast (pySplit (pyLast (pySplit stem '_')) '-')
  match pyInt? tok with
  | some n => Except.ok n
  | none => Except.error (.valueError ("invalid literal for int() with base 10: " ++ tok))

/-- Whether data_dir.glob matches the file name against the pattern
star-dot-geojson: pathlib fnmatch semantics, where the star also matches
names starting with a dot, so the test is exactly a suffix test. -/
def pyGlobMatch (n : String) : Bool := (".geojson".data).isSuffixOf n.data

/-- pathlib Path.stem for a name that ends in .geojson: the suffix is
dropped, except that a leading dot alone is not a suffix, so the hidden
name consisting only of .geojson is its own stem. -/
def pyStem (n : String) : String :=
  if n = ".geojson" then n else String.mk (n.data.take (n.data.length - 8))

/-! ## Column and label constants of the script -/

/-- Tooltip column for the emergence layer. -/
def emKey : String := "Auflaufen (BBCH 09)"

/-- Tooltip column for the heading layer. -/
def hdKey : String := "Ende des Aehrenschieben (BBCH 59)"

/-- Choropleth value column for the emergence layer. -/
def emCol : String := "emergence_date:doy"

/-- Choropleth value column for the heading layer. -/
def hdCol : String := "heading_date:doy"

/-- Layer name of the emergence choropleth: the year followed by
Auflaufen, as the f-string on line 173 formats it. -/
def emName (year : Int) : String := toString year ++ " Auflaufen"

/-- Layer name of the heading choropleth: the year followed by
Ährenschieben, from line 206. -/
def hdName (year : Int) : String := toString year ++ " Ährenschieben"

/-- Legend caption of the emergence choropleth, from line 181. -/
def emLegend (year : Int) : String :=
  "Beginn des Auflaufens " ++ toString year ++ " (Tag des Jahres)"

/-- Legend caption of the heading choropleth, from line 214. -/
def hdLegend (year : Int) : String :=
  "Ende des Ährenschiebens " ++ toString year ++ " (Tag des Jahres)"

/-! ## The attribute table and the tooltip population loop -/

/-- Column access on a Row, as indexing the pandas frame by column name:
the file carries exactly the id column, the two day-of-year columns and
the two date-string columns. -/
def rowAttr (r : Row) (col : String) : Option PValue :=
  if col = "id" then some (.int r.id)
  else if col = emCol then some (.int r.emergence_doy)
  else if col = hdCol then some (.int r.heading_doy)
  else if col = emKey then some (.str r.emergence_date)
  else if col = hdKey then some (.str r.heading_date)
  else none

/-- The lookup gdf_indexed.loc applied at an integer key and a column
name, where gdf_indexed is gdf.set_index on the id column: the row whose
id equals the key is located (KeyError when there is none), then the
column is read (KeyError when the column is missing). -/
def locColumn (rows : List Row) (k : Int) (col : String) : Except PyError PValue :=
  match rows.find? (fun r => r.id == k) with
  | none => Except.error (.keyError k)
  | some r =>
    match rowAttr r col with
    | some v => Except.ok v
    | none => Except.error (.keyErrorStr col)

/-- Dictionary read on a feature properties dictionary. -/
def lookupProp (k : String) (props : List (String × PValue)) : Option PValue :=
  (props.find? (fun p => p.1 == k)).map (fun p => p.2)

/-- Dictionary assignment on a feature properties dictionary: an existing
key is overwritten in place, a new key is appended. -/
def setProp (props : List (String × PValue)) (k : String) (v : PValue) :
    List (String × PValue) :=
  if props.any (fun p => p.1 == k) then
    props.map (fun p => if p.1 == k then (k, v) else p)
  else props ++ [(k, v)]

/-- The feature collection folium embeds for geo_data set to the frame
gdf: geopandas iterfeatures emits, for each row in order, a feature whose
top-level id is the stringified dataframe index — the 0-based position,
since read_file leaves the default RangeIndex — and whose properties are
the row columns. -/
def gdfFeatures (rows : List Row) : List Feature :=
  ((List.range rows.length).zip rows).map (fun p =>
    { featId := (p.1 : Int)
      props := [("id", .int p.2.id),
                (emCol, .int p.2.emergence_doy),
                (hdCol, .int p.2.heading_doy),
                (emKey, .str p.2.emergence_date),
                (hdKey, .str p.2.heading_date)] })

/-- The tooltip population loop of lines 185-188 and 218-221: for each
feature s of the embedded collection, the property named col is assigned
gdf_indexed.loc at int of the top-level feature id and at col.  The
first failing lookup raises, aborting the run. -/
def populateTooltip (rows : List Row) (col : String) :
    List Feature → Except PyError (List Feature)
  | [] => Except.ok []
  | s :: rest =>
    match locColumn rows s.featId col with
    | Except.error e => Except.error e
    | Except.ok v =>
      match populateTooltip rows col rest with
      | Except.error e => Except.error e
      | Except.ok rest2 => Except.ok ({ s with props := setProp s.props col v } :: rest2)

/-! ## The choropleth constructor and the colormap detach loop -/

/-- The folium.Choropleth call of lines 171-183 and 204-216: the keyword
arguments as the script passes them, the embedded GeoJson child built
from the frame (no tooltip yet), and the keyed child list, in which
folium adds the geo_json child first and the color_map child — a branca
StepColormap captioned with legend_name — last. -/
def foliumChoropleth (rows : List Row) (layerName valueCol legend : String)
    (shown : Bool) : Choropleth :=
  { name := layerName
    columns := ("id", valueCol)
    key_on := "feature.properties.id"
    fill_color := "viridis"
    fill_opacity := (7 : Rat)/10
    line_opacity := (1 : Rat)/5
    lazy := true
    legend_name := legend
    «show» := shown
    geojson := { features := gdfFeatures rows, tooltipFields := [] }
    children := [.geoJson, .colorMap { caption := legend }] }

/-- The loop of lines 194-197 and 228-231 over the keyed children of a
layer, deleting every key that starts with color_map and binding the
deleted child to the variable branca_color_map.  CPython OrderedDict
iterator semantics: deleting the current key ends the iteration cleanly
when it was the last key, and otherwise the next iterator step raises
RuntimeError.  When no key matches, the branca_color_map binding keeps
whatever value it had before the loop. -/
def delColorMapLoop (branca : Option Colormap) :
    List ChoroChild → Except PyError (Option Colormap × List ChoroChild)
  | [] => Except.ok (branca, [])
  | .geoJson :: rest =>
    match delColorMapLoop branca rest with
    | Except.error e => Except.error e
    | Except.ok (b2, rest2) => Except.ok (b2, .geoJson :: rest2)
  | .colorMap cm :: rest =>
    if rest.isEmpty then Except.ok (some cm, [])
    else Except.error (.runtimeError ("OrderedDict mutated during iteration"))

/-! ## The per-file body of the loop and the generator -/

/-- The body of the for-loop of generate_folium_map for one selected
file, lines 166-237: build the emergence choropleth (visible only for
the first processed file), populate and attach its tooltip, detach its
colormap and re-add layer, colormap and BindColormap to the map; then
the same for the heading choropleth with show set to False.  The value
threaded through branca models the Python local branca_color_map, which
would keep a stale value — or be unbound, raising NameError on first
use — if a layer ever lacked a color_map child. -/
def processFile (f : DataFile) (year : Int) (isFirst : Bool)
    (branca : Option Colormap) :
    Except PyError (List Element × Option Colormap) :=
  let gdf := f.rows
  let emergence := foliumChoropleth gdf (emName year) emCol (emLegend year) isFirst
  match populateTooltip gdf emKey emergence.geojson.features with
  | Except.error e => Except.error e
  | Except.ok efeats =>
    let emergence := { emergence with
      geojson := { features := efeats, tooltipFields := [emKey] } }
    match delColorMapLoop branca emergence.children with
    | Except.error e => Except.error e
    | Except.ok (branca2, emChildren) =>
      let emergence := { emergence with children := emChildren }
      match branca2 with
      | none => Except.error (.nameError ("name branca_color_map is not defined"))
      | some branca_color_map =>
        let heading := foliumChoropleth gdf (hdName year) hdCol (hdLegend year) false
        match populateTooltip gdf hdKey heading.geojson.features with
        | Except.error e => Except.error e
        | Except.ok hfeats =>
          let heading := { heading with
            geojson := { features := hfeats, tooltipFields := [hdKey] } }
          match delColorMapLoop (some branca_color_map) heading.children with
          | Except.error e => Except.error e
          | Except.ok (branca3, hdChildren) =>
            let heading := { heading with children := hdChildren }
            match branca3 with
            | none => Except.error (.nameError ("name branca_color_map is not defined"))
            | some branca_color_map2 =>
              Except.ok
                ([.choropleth emergence, .colormap branca_color_map,
                  .bindColormap emergence.name branca_color_map,
                  .choropleth heading, .colormap branca_color_map2,
                  .bindColormap heading.name branca_color_map2],
                 some branca_color_map2)

/-- The for-loop of lines 160-237 over the directory listing: files not
matching the glob pattern are not visited at all; for a matching file
the year is parsed from the stem (ValueError aborts the run), files with
unselected years are skipped by continue, and each processed file
appends its six elements and increments idx. -/
def genLoop (selected : List Int) :
    List DataFile → Nat → Option Colormap → Except PyError (List Element)
  | [], _, _ => Except.ok []
  | f :: rest, idx, branca =>
    if pyGlobMatch f.name then
      match parseYear (pyStem f.name) with
      | Except.error e => Except.error e
      | Except.ok year =>
        if year ∈ selected then
          match processFile f year (idx == 0) branca with
          | Except.error e => Except.error e
          | Except.ok (es, branca2) =>
            match genLoop selected rest (idx + 1) branca2 with
            | Except.error e => Except.error e
            | Except.ok rest2 => Except.ok (es ++ rest2)
        else genLoop selected rest idx branca
    else genLoop selected rest idx branca

/-- generate_folium_map as a document builder: the base map of lines
145-150, the custom styled overlay of lines 153-157 attached first, the
layer elements of the loop, and the expanded LayerControl of line 240
attached last.  The write of line 241 is modelled separately as an
effect trace. -/
def generate_folium_map (files : List DataFile) (selected : List Int) :
    Except PyError MapDoc :=
  match genLoop selected files 0 none with
  | Except.error e => Except.error e
  | Except.ok elems =>
    Except.ok
      { location := ((47 : Rat), (15 : Rat)/2)
        zoom_start := 8
        tiles := "cartodbpositron"
        attr := "© Terensis (2023). Basemap data © CartoDB"
        children := Element.macroStyle :: elems ++ [Element.layerControl false] }

/-! ## The BindColormap script behaviour -/

/-- Layer-control events the embedded map fires when a layer is toggled
on or off, carrying the toggled layer. -/
inductive LayerEvent where
  | overlayadd (layerName : String)
  | overlayremove (layerName : String)
  deriving DecidableEq, Repr

/-- The first statement of the BindColormap template script, line 29: at
load time the display style of the bound colormap svg is set to block,
unconditionally — independent of whether the bound layer starts
visible. -/
def bindColormapInitDisplay : String := "block"

/-- The two event handlers the BindColormap template registers, lines
30-37: an overlayadd for the bound layer sets the display to block, an
overlayremove for it sets the display to none, all other events leave
the display unchanged. -/
def bindColormapStep (selfLayer : String) (display : String) :
    LayerEvent → String
  | .overlayadd n => if n = selfLayer then ("block") else display
  | .overlayremove n => if n = selfLayer then ("none") else display

/-- The display of a bound legend after a sequence of layer-control
events, starting from the unconditional block of the load-time
statement. -/
def bindColormapDisplay (selfLayer : String) (evs : List LayerEvent) : String :=
  evs.foldl (bindColormapStep selfLayer) bindColormapInitDisplay

/-- Visibility of a layer after a sequence of layer-control events,
starting from its show flag: an overlayadd for the layer makes it
visible, an overlayremove hides it. -/
def layerVisibleAfter (layerName : String) (show0 : Bool)
    (evs : List LayerEvent) : Bool :=
  evs.foldl (fun v e =>
    match e with
    | .overlayadd n => if n = layerName then true else v
    | .overlayremove n => if n = layerName then false else v) show0

/-- Whether an event concerns the given layer. -/
def eventTouches (layerName : String) : LayerEvent → Bool
  | .overlayadd n => n == layerName
  | .overlayremove n => n == layerName

/-! ## Filesystem effects -/

/-- The filesystem writes the script performs. -/
inductive FsEffect where
  | mkdirExistOk (path : String)
  | writeFile (path : String)
  deriving DecidableEq, Repr

/-- Whether an effect writes a file. -/
def isFileWrite : FsEffect → Bool
  | .writeFile _ => true
  | .mkdirExistOk _ => false

/-- pathlib joinpath followed by str, for the paths the script joins: the
current-directory path contributes no prefix. -/
def pyJoinPath (dir fname : String) : String :=
  if dir = "." then fname else dir ++ "/" ++ fname

/-- The write trace of one generate_folium_map call: reading the data
directory is not a write, and the single m.save of line 241 runs only
when the loop completed without raising. -/
def generateWriteEffects (files : List DataFile) (selected : List Int)
    (output_dir output_name : String) : List FsEffect :=
  match generate_folium_map files selected with
  | Except.ok _ => [.writeFile (pyJoinPath output_dir output_name)]
  | Except.error _ => []

/-- The write trace of the script entry point, lines 244-248: output_dir
is the current directory, created with exist_ok, then
generate_folium_map runs with the default output name index.html and the
default selected years 2018, 2019, 2020. -/
def scriptMain (dataFiles : List DataFile) : List FsEffect :=
  FsEffect.mkdirExistOk (".") :: generateWriteEffects dataFiles [2018, 2019, 2020] (".") ("index.html")

/-! ## Observers on the composed document -/

/-- The choropleth layers among a list of elements, in document order. -/
def choroplethsOf (es : List Element) : List Choropleth :=
  es.filterMap (fun e =>
    match e with
    | .choropleth c => some c
    | _ => none)

/-- Names of the choropleth layers of a document part. -/
def elemsChoroNames (es : List Element) : List String :=
  (choroplethsOf es).map (fun c => c.name)

/-- Name and value column of every initially visible choropleth layer. -/
def visTags (es : List Element) : List (String × String) :=
  ((choroplethsOf es).filter (fun c => c.«show»)).map (fun c => (c.name, c.columns.2))

/-- The choropleth layers of a document. -/
def docChoropleths (doc : MapDoc) : List Choropleth := choroplethsOf doc.children

/-- Number of choropleth layers of a document. -/
def choroplethCount (doc : MapDoc) : Nat := (docChoropleths doc).length

/-- Number of detached colormap elements of a document. -/
def colormapCount (doc : MapDoc) : Nat :=
  (doc.children.filter (fun e =>
    match e with
    | .colormap _ => true
    | _ => false)).length

/-- Number of BindColormap elements of a document. -/
def bindCount (doc : MapDoc) : Nat :=
  (doc.children.filter (fun e =>
    match e with
    | .bindColormap _ _ => true
    | _ => false)).length

/-- Number of tooltip field bindings over all layers of a document. -/
def tooltipCount (doc : MapDoc) : Nat :=
  ((docChoropleths doc).map (fun c => c.geojson.tooltipFields.length)).sum

/-- Whether a feature carries the property k with a string value, as a
human-readable date column yields. -/
def isStrProp (k : String) (s : Feature) : Bool :=
  match lookupProp k s.props with
  | some (.str _) => true
  | _ => false

/-- Whether the tooltip of a layer is the one of its own metric: an
emergence-valued layer exposes exactly the human-readable emergence date
column, a heading-valued layer exactly the heading one, and every
tooltip field is present on every feature with a string value. -/
def tooltipMatchesColumn (c : Choropleth) : Bool :=
  ((c.columns.2 == emCol && c.geojson.tooltipFields == [emKey])
    || (c.columns.2 == hdCol && c.geojson.tooltipFields == [hdKey]))
  && c.geojson.tooltipFields.all (fun k => c.geojson.features.all (fun s => isStrProp k s))

/-- Whether every choropleth layer of a document part satisfies
tooltipMatchesColumn. -/
def elemsTooltipsOk (es : List Element) : Bool :=
  (choroplethsOf es).all tooltipMatchesColumn

/-- Whether the children of a layer contain no colormap, i.e. the
auto-generated colormap was detached. -/
def colormapFreeChildren (c : Choropleth) : Bool :=
  c.children.all (fun ch =>
    match ch with
    | .colorMap _ => false
    | .geoJson => true)

/-- Whether every choropleth layer of an element list is immediately
followed by a detached colormap carrying the caption of the layer and by
a BindColormap pairing exactly that layer with exactly that colormap,
the layer itself keeping no colormap child.  A colormap is determined by
its caption, so caption equality is equality of the colormaps. -/
def bindingsOk : List Element → Bool
  | [] => true
  | e :: rest =>
    match e with
    | .choropleth c =>
      match rest with
      | .colormap cm :: .bindColormap n cm2 :: rest2 =>
        colormapFreeChildren c && (cm.caption == c.legend_name)
          && (n == c.name) && (cm2.caption == cm.caption) && bindingsOk rest2
      | _ => false
    | _ => bindingsOk rest

/-- Whether an Except result is a success. -/
def exceptIsOk {α : Type} : Except PyError α → Bool
  | Except.ok _ => true
  | Except.error _ => false

/-- Bool form of the initial-state condition of the legend-pairing claim:
every BindColormap element whose legend display initializes to block
belongs to a layer that starts visible. -/
def startsVisible (doc : MapDoc) (l : String) : Bool :=
  (docChoropleths doc).any (fun c => c.name == l && c.«show»)

/-- Whether the initial legend displays of a document agree with the
initial layer visibilities, as the claim about legend lock-step asserts
for the initial state. -/
def legendInitLockstep (doc : MapDoc) : Bool :=
  doc.children.all (fun e =>
    match e with
    | .bindColormap l _ => (bindColormapInitDisplay != "block") || startsVisible doc l
    | _ => true)

/-- Whether a Bool-valued filter keeps a file: the file matches the glob
pattern and its parsed year is selected.  This is the processed-files
test of the loop. -/
def selectedFileB (selected : List Int) (f : DataFile) : Bool :=
  pyGlobMatch f.name &&
    (match parseYear (pyStem f.name) with
     | Except.ok y => decide (y ∈ selected)
     | Except.error _ => false)

/-- The files the loop processes, in listing order. -/
def processedFiles (files : List DataFile) (selected : List Int) : List DataFile :=
  files.filter (selectedFileB selected)

/-- The year parsed from a file name, with a junk default for files whose
parse fails; only ever applied to files whose parse succeeded. -/
def fileYearD (f : DataFile) : Int :=
  match parseYear (pyStem f.name) with
  | Except.ok y => y
  | Except.error _ => 0

/-- Whether every position of the row list occurs as a value of the id
column, the condition under which every tooltip lookup of the script
succeeds. -/
def idsCoverPositions (rows : List Row) : Bool :=
  (List.range rows.length).all (fun i => rows.any (fun r => r.id == (i : Int)))

/-- Whether the id column values are pairwise distinct, the unique
identifier requirement on well-formed input files. -/
def rowIdsUnique (rows : List Row) : Bool :=
  decide ((rows.map (fun r => r.id)).Nodup)

/-! ## Closed form of the per-file processing -/

/-- The emergence choropleth as it ends up in the document: tooltip
attached, colormap child detached, features as the population loop left
them. -/
def emChoroOf (f : DataFile) (y : Int) (fst : Bool) (ef : List Feature) : Choropleth :=
  { foliumChoropleth f.rows (emName y) emCol (emLegend y) fst with
    geojson := { features := ef, tooltipFields := [emKey] }
    children := [.geoJson] }

/-- The heading choropleth as it ends up in the document. -/
def hdChoroOf (f : DataFile) (y : Int) (hf : List Feature) : Choropleth :=
  { foliumChoropleth f.rows (hdName y) hdCol (hdLegend y) false with
    geojson := { features := hf, tooltipFields := [hdKey] }
    children := [.geoJson] }

/-- The six elements one processed file adds to the map, in order. -/
def chunkOf (f : DataFile) (y : Int) (fst : Bool) (ef hf : List Feature) : List Element :=
  [.choropleth (emChoroOf f y fst ef), .colormap { caption := emLegend y },
   .bindColormap (emName y) { caption := emLegend y },
   .choropleth (hdChoroOf f y hf), .colormap { caption := hdLegend y },
   .bindColormap (hdName y) { caption := hdLegend y }]

/-- Closed form of processFile: the colormap detach always succeeds with
the freshly created colormap because the colormap child is the last
child, so the body either fails in one of the two tooltip population
loops or returns the six elements of chunkOf. -/
theorem processFile_eq (f : DataFile) (y : Int) (fst : Bool) (b : Option Colormap) :
    processFile f y fst b =
      match populateTooltip f.rows emKey (gdfFeatures f.rows),
            populateTooltip f.rows hdKey (gdfFeatures f.rows) with
      | Except.ok ef, Except.ok hf =>
          Except.ok (chunkOf f y fst ef hf, some { caption := hdLegend y })
      | Except.error e, _ => Except.error e
      | Except.ok _, Except.error e => Except.error e := by
  unfold processFile
  simp only [foliumChoropleth]
  cases hem : populateTooltip f.rows emKey (gdfFeatures f.rows) with
  | error e => rfl
  | ok ef =>
    cases hhd : populateTooltip f.rows hdKey (gdfFeatures f.rows) with
    | error e => simp [delColorMapLoop, hhd]
    | ok hf => simp [delColorMapLoop, hhd, chunkOf, emChoroOf, hdChoroOf, foliumChoropleth]

/-! ## Properties of the tooltip population -/

/-- Overwriting or appending a property makes it readable with exactly
the written value. -/
theorem lookupProp_setProp (props : List (String × PValue)) (k : String) (v : PValue) :
    lookupProp k (setProp props k v) = some v := by
  induction props with
  | nil => simp [setProp, lookupProp]
  | cons p ps ih =>
    by_cases hp : p.1 == k
    · by_cases ha : ps.any (fun q => q.1 == k)
      · simp_all [setProp, lookupProp, List.find?]
      · simp_all [setProp, lookupProp, List.find?]
    · by_cases ha : ps.any (fun q => q.1 == k)
      · simp_all [setProp, lookupProp, List.find?]
      · simp_all [setProp, lookupProp, List.find?]

/-- Reading the emergence date column of a row. -/
theorem rowAttr_emKey (r : Row) : rowAttr r emKey = some (.str r.emergence_date) := rfl

/-- Reading the heading date column of a row. -/
theorem rowAttr_hdKey (r : Row) : rowAttr r hdKey = some (.str r.heading_date) := rfl

/-- Every feature of a successfully populated collection carries the
populated column as a string property, for the two human-readable date
columns the script populates. -/
theorem populateTooltip_mem_str (rows : List Row) (col : String)
    (hcol : col = emKey ∨ col = hdKey) :
    ∀ feats efeats, populateTooltip rows col feats = Except.ok efeats →
      ∀ s ∈ efeats, isStrProp col s = true := by
  intro feats
  induction feats with
  | nil =>
    intro efeats h s hs
    unfold populateTooltip at h
    cases h
    cases hs
  | cons a as ih =>
    intro efeats h s hs
    unfold populateTooltip at h
    cases hl : locColumn rows a.featId col with
    | error e => rw [hl] at h; cases h
    | ok v =>
      rw [hl] at h
      cases hr : populateTooltip rows col as with
      | error e => rw [hr] at h; cases h
      | ok rest2 =>
        rw [hr] at h
        cases h
        rcases List.mem_cons.mp hs with hs1 | hs2
        · subst hs1
          have hv : ∃ d, v = PValue.str d := by
            unfold locColumn at hl
            cases hf : rows.find? (fun r => r.id == a.featId) with
            | none => rw [hf] at hl; cases hl
            | some r =>
              rw [hf] at hl
              rcases hcol with hc | hc <;> subst hc
              · simp only [rowAttr_emKey, Except.ok.injEq] at hl
                exact ⟨r.emergence_date, hl.symm⟩
              · simp only [rowAttr_hdKey, Except.ok.injEq] at hl
                exact ⟨r.heading_date, hl.symm⟩
          obtain ⟨d, hd⟩ := hv
          subst hd
          simp [isStrProp, lookupProp_setProp]
        · exact ih rest2 hr s hs2

/-! ## Chunk-level observations -/

/-- Name and value column of the first processed file, the tag of the
single layer shown initially. -/
def firstEmTag : List DataFile → List (String × String)
  | [] => []
  | f :: _ => [(emName (fileYearD f), emCol)]

/-- Filtering choropleths distributes over concatenation. -/
theorem choroplethsOf_append (l1 l2 : List Element) :
    choroplethsOf (l1 ++ l2) = choroplethsOf l1 ++ choroplethsOf l2 :=
  List.filterMap_append l1 l2 _

/-- The choropleth layers of a chunk are its emergence and heading
layer. -/
theorem choroplethsOf_chunk (f : DataFile) (y : Int) (fst : Bool) (ef hf : List Feature) :
    choroplethsOf (chunkOf f y fst ef hf) = [emChoroOf f y fst ef, hdChoroOf f y hf] := rfl

/-- The two layer names of a chunk. -/
theorem elemsChoroNames_chunk (f : DataFile) (y : Int) (fst : Bool) (ef hf : List Feature) :
    elemsChoroNames (chunkOf f y fst ef hf) = [emName y, hdName y] := rfl

/-- The visible tags of a chunk: the emergence layer exactly when the
chunk belongs to the first processed file, never the heading layer. -/
theorem visTags_chunk (f : DataFile) (y : Int) (fst : Bool) (ef hf : List Feature) :
    visTags (chunkOf f y fst ef hf) = if fst then [(emName y, emCol)] else [] := by
  cases fst <;> rfl

/-- Tooltip consistency of a chunk follows from the populated feature
collections carrying the right string property. -/
theorem elemsTooltipsOk_chunk (f : DataFile) (y : Int) (fst : Bool) (ef hf : List Feature)
    (hef : ∀ s ∈ ef, isStrProp emKey s = true)
    (hhf : ∀ s ∈ hf, isStrProp hdKey s = true) :
    elemsTooltipsOk (chunkOf f y fst ef hf) = true := by
  simp only [elemsTooltipsOk, choroplethsOf_chunk, tooltipMatchesColumn,
    emChoroOf, hdChoroOf, foliumChoropleth, List.all_eq_true, List.all_cons,
    List.all_nil, Bool.and_true, beq_self_eq_true, Bool.true_and, Bool.true_or,
    decide_eq_true_eq]
  simp [List.all_eq_true]
  exact ⟨hef, hhf⟩

/-- A chunk is transparent to the pairing check: its two layers are each
followed by their own detached colormap and binding, so the check
continues on whatever follows the chunk. -/
theorem bindingsOk_chunk (f : DataFile) (y : Int) (fst : Bool) (ef hf : List Feature)
    (suffix : List Element) :
    bindingsOk (chunkOf f y fst ef hf ++ suffix) = bindingsOk suffix := by
  simp [chunkOf, bindingsOk, colormapFreeChildren, emChoroOf, hdChoroOf, foliumChoropleth]

/-- Tooltip consistency distributes over concatenation. -/
theorem elemsTooltipsOk_append (l1 l2 : List Element) :
    elemsTooltipsOk (l1 ++ l2) = (elemsTooltipsOk l1 && elemsTooltipsOk l2) := by
  simp [elemsTooltipsOk, choroplethsOf_append, List.all_append]

/-- Visible tags distribute over concatenation. -/
theorem visTags_append (l1 l2 : List Element) :
    visTags (l1 ++ l2) = visTags l1 ++ visTags l2 := by
  simp [visTags, choroplethsOf_append, List.filter_append]

/-- Layer names distribute over concatenation. -/
theorem elemsChoroNames_append (l1 l2 : List Element) :
    elemsChoroNames (l1 ++ l2) = elemsChoroNames l1 ++ elemsChoroNames l2 := by
  simp [elemsChoroNames, choroplethsOf_append]

/-! ## Master description of a successful loop run -/

/-- A file that passes the glob, parses and is selected heads the
processed list. -/
theorem processedFiles_cons_pos (selected : List Int) (f : DataFile) (rest : List DataFile)
    (hsel : selectedFileB selected f = true) :
    processedFiles (f :: rest) selected = f :: processedFiles rest selected := by
  simp [processedFiles, List.filter_cons, hsel]

/-- A skipped file does not appear in the processed list. -/
theorem processedFiles_cons_neg (selected : List Int) (f : DataFile) (rest : List DataFile)
    (hsel : selectedFileB selected f = false) :
    processedFiles (f :: rest) selected = processedFiles rest selected := by
  simp [processedFiles, List.filter_cons, hsel]

/-- Description of every successful run of the directory loop: the layer
names are two per processed file in order, the initially visible layers
are exactly the emergence layer of the first processed file when the
loop starts at index zero, every layer carries the tooltip of its own
metric, and every layer is directly followed by its detached colormap
and its BindColormap pairing. -/
theorem genLoop_ok_spec (selected : List Int) :
    ∀ (files : List DataFile) (idx : Nat) (b : Option Colormap) (elems : List Element),
      genLoop selected files idx b = Except.ok elems →
      elemsChoroNames elems = (processedFiles files selected).flatMap
          (fun g => [emName (fileYearD g), hdName (fileYearD g)])
      ∧ visTags elems = (if idx = 0 then firstEmTag (processedFiles files selected) else [])
      ∧ elemsTooltipsOk elems = true
      ∧ ∀ suffix, bindingsOk (elems ++ suffix) = bindingsOk suffix := by
  intro files
  induction files with
  | nil =>
    intro idx b elems h
    unfold genLoop at h
    cases h
    refine ⟨rfl, ?_, rfl, fun suffix => rfl⟩
    simp [processedFiles, firstEmTag, visTags, choroplethsOf]
  | cons f rest ih =>
    intro idx b elems h
    unfold genLoop at h
    by_cases hg : pyGlobMatch f.name = true
    · rw [if_pos hg] at h
      cases hp : parseYear (pyStem f.name) with
      | error e => rw [hp] at h; cases h
      | ok y =>
        rw [hp] at h
        dsimp only at h
        by_cases hy : y ∈ selected
        · rw [if_pos hy] at h
          cases hpf : processFile f y (idx == 0) b with
          | error e => rw [hpf] at h; cases h
          | ok p =>
            obtain ⟨es, b2⟩ := p
            rw [hpf] at h
            dsimp only at h
            cases hrest : genLoop selected rest (idx + 1) b2 with
            | error e => rw [hrest] at h; cases h
            | ok rest2 =>
              rw [hrest] at h
              dsimp only at h
              cases h
              obtain ⟨ihA, ihB, ihC, ihD⟩ := ih (idx + 1) b2 rest2 hrest
              have hsel : selectedFileB selected f = true := by
                simp [selectedFileB, hg, hp, hy]
              have hyear : fileYearD f = y := by simp [fileYearD, hp]
              have hpe := processFile_eq f y (idx == 0) b
              rw [hpf] at hpe
              cases hem : populateTooltip f.rows emKey (gdfFeatures f.rows) with
              | error e => rw [hem] at hpe; cases hpe
              | ok ef =>
                cases hhd : populateTooltip f.rows hdKey (gdfFeatures f.rows) with
                | error e => rw [hem, hhd] at hpe; cases hpe
                | ok hf =>
                  rw [hem, hhd] at hpe
                  have hes : es = chunkOf f y (idx == 0) ef hf := by
                    cases hpe
                    rfl
                  subst hes
                  rw [processedFiles_cons_pos selected f rest hsel]
                  refine ⟨?_, ?_, ?_, ?_⟩
                  · rw [elemsChoroNames_append, elemsChoroNames_chunk, ihA]
                    simp [hyear]
                  · rw [visTags_append, visTags_chunk, ihB]
                    cases idx with
                    | zero => simp [firstEmTag, hyear]
                    | succ n => simp [firstEmTag]
                  · rw [elemsTooltipsOk_append, elemsTooltipsOk_chunk f y (idx == 0) ef hf
                      (populateTooltip_mem_str f.rows emKey (Or.inl rfl) _ ef hem)
                      (populateTooltip_mem_str f.rows hdKey (Or.inr rfl) _ hf hhd), ihC]
                    rfl
                  · intro suffix
                    rw [List.append_assoc, bindingsOk_chunk, ihD]
        · rw [if_neg hy] at h
          obtain ⟨ihA, ihB, ihC, ihD⟩ := ih idx b elems h
          have hsel : selectedFileB selected f = false := by
            simp [selectedFileB, hg, hp, hy]
          rw [processedFiles_cons_neg selected f rest hsel]
          exact ⟨ihA, ihB, ihC, ihD⟩
    · rw [if_neg hg] at h
      obtain ⟨ihA, ihB, ihC, ihD⟩ := ih idx b elems h
      have hsel : selectedFileB selected f = false := by
        simp [selectedFileB, hg]
      rw [processedFiles_cons_neg selected f rest hsel]
      exact ⟨ihA, ihB, ihC, ihD⟩

/-! ## Bridging the loop output to the document -/

/-- A successful generate_folium_map run wraps a successful loop run
between the custom overlay and the layer control. -/
theorem generate_ok_elems (files : List DataFile) (selected : List Int) (doc : MapDoc)
    (h : generate_folium_map files selected = Except.ok doc) :
    ∃ elems, genLoop selected files 0 none = Except.ok elems
      ∧ doc.children = Element.macroStyle :: elems ++ [Element.layerControl false] := by
  unfold generate_folium_map at h
  cases hg : genLoop selected files 0 none with
  | error e => rw [hg] at h; cases h
  | ok elems =>
    rw [hg] at h
    dsimp only at h
    cases h
    exact ⟨elems, rfl, rfl⟩

/-- The overlay and the layer control are not choropleth layers. -/
theorem choroplethsOf_doc (elems : List Element) :
    choroplethsOf (Element.macroStyle :: elems ++ [Element.layerControl false])
      = choroplethsOf elems := by
  simp [choroplethsOf, List.filterMap_append, List.filterMap_cons]

/-- The pairing check ignores the overlay and the layer control. -/
theorem bindingsOk_doc (elems : List Element)
    (hsfx : ∀ suffix, bindingsOk (elems ++ suffix) = bindingsOk suffix) :
    bindingsOk (Element.macroStyle :: elems ++ [Element.layerControl false]) = true := by
  have h1 : bindingsOk (Element.macroStyle :: elems ++ [Element.layerControl false])
      = bindingsOk (elems ++ [Element.layerControl false]) := rfl
  rw [h1, hsfx]
  rfl

/-! ## Error propagation for malformed file names -/

/-- A glob-matched file whose stem parse fails makes the whole loop fail:
either the loop dies earlier, or it reaches the file and the ValueError
of int() propagates.  The file is never skipped. -/
theorem genLoop_error_of_badfile (selected : List Int) :
    ∀ (files : List DataFile) (idx : Nat) (b : Option Colormap) (f : DataFile) (e : PyError),
      f ∈ files → pyGlobMatch f.name = true → parseYear (pyStem f.name) = Except.error e →
      exceptIsOk (genLoop selected files idx b) = false := by
  intro files
  induction files with
  | nil => intro idx b f e hf hg hp; cases hf
  | cons g rest ih =>
    intro idx b f e hf hg hp
    unfold genLoop
    by_cases hgg : pyGlobMatch g.name = true
    · rw [if_pos hgg]
      cases hpg : parseYear (pyStem g.name) with
      | error e2 => rfl
      | ok y =>
        dsimp only
        rcases List.mem_cons.mp hf with hfg | hfr
        · subst hfg
          rw [hpg] at hp
          cases hp
        · by_cases hy : y ∈ selected
          · rw [if_pos hy]
            cases hpf : processFile g y (idx == 0) b with
            | error e3 => rfl
            | ok p =>
              obtain ⟨es, b2⟩ := p
              dsimp only
              cases hrest : genLoop selected rest (idx + 1) b2 with
              | error e3 => rfl
              | ok rest2 =>
                have hbad := ih (idx + 1) b2 f e hfr hg hp
                rw [hrest] at hbad
                cases hbad
          · rw [if_neg hy]
            exact ih idx b f e hfr hg hp
    · rw [if_neg hgg]
      rcases List.mem_cons.mp hf with hfg | hfr
      · subst hfg
        exact absurd hg hgg
      · exact ih idx b f e hfr hg hp

/-! ## The empty selection -/

/-- With no selected years a successful loop run adds nothing. -/
theorem genLoop_empty_selected :
    ∀ (files : List DataFile) (idx : Nat) (b : Option Colormap) (elems : List Element),
      genLoop [] files idx b = Except.ok elems → elems = [] := by
  intro files
  induction files with
  | nil =>
    intro idx b elems h
    cases h
    rfl
  | cons f rest ih =>
    intro idx b elems h
    unfold genLoop at h
    by_cases hg : pyGlobMatch f.name = true
    · rw [if_pos hg] at h
      cases hp : parseYear (pyStem f.name) with
      | error e => rw [hp] at h; cases h
      | ok y =>
        rw [hp] at h
        dsimp only at h
        rw [if_neg (List.not_mem_nil y)] at h
        exact ih idx b elems h
    · rw [if_neg hg] at h
      exact ih idx b elems h

/-! ## Files the glob does not match are invisible to the run -/

/-- Removing a file whose name does not match the glob pattern from the
listing, wherever it sits, leaves the loop result unchanged: the file is
neither parsed nor processed nor able to raise. -/
theorem genLoop_ignores_nonmatching (selected : List Int) (f : DataFile)
    (hf : pyGlobMatch f.name = false) :
    ∀ (pre post : List DataFile) (idx : Nat) (b : Option Colormap),
      genLoop selected (pre ++ f :: post) idx b = genLoop selected (pre ++ post) idx b := by
  intro pre
  induction pre with
  | nil =>
    intro post idx b
    simp only [List.nil_append]
    conv_lhs => rw [genLoop]
    rw [hf, if_neg Bool.false_ne_true]
  | cons g pre2 ih =>
    intro post idx b
    simp only [List.cons_append]
    conv_lhs => rw [genLoop]
    conv_rhs => rw [genLoop]
    by_cases hg : pyGlobMatch g.name = true
    · rw [if_pos hg, if_pos hg]
      cases hp : parseYear (pyStem g.name) with
      | error e => rfl
      | ok y =>
        dsimp only
        by_cases hy : y ∈ selected
        · rw [if_pos hy, if_pos hy]
          cases hpf : processFile g y (idx == 0) b with
          | error e => rfl
          | ok p =>
            obtain ⟨es, b2⟩ := p
            dsimp only
            rw [ih post (idx + 1) b2]
        · rw [if_neg hy, if_neg hy]
          exact ih post idx b
    · rw [if_neg hg, if_neg hg]
      exact ih post idx b

/-! ## Success of the tooltip lookups under positional coverage -/

/-- Every feature folium embeds for a frame carries a positional id
below the row count. -/
theorem gdfFeatures_featId (rows : List Row) :
    ∀ s ∈ gdfFeatures rows, ∃ i : Nat, i < rows.length ∧ s.featId = (i : Int) := by
  intro s hs
  unfold gdfFeatures at hs
  obtain ⟨p, hmem, heq⟩ := List.mem_map.mp hs
  obtain ⟨i, r⟩ := p
  have hi := (List.of_mem_zip hmem).1
  cases heq
  exact ⟨i, List.mem_range.mp hi, rfl⟩

/-- When every feature id occurs as an id-column value, the population
loop succeeds for the two date columns the script reads. -/
theorem populateTooltip_isOk (rows : List Row) (col : String)
    (hcol : col = emKey ∨ col = hdKey) :
    ∀ feats, (∀ s ∈ feats, rows.any (fun r => r.id == s.featId) = true) →
      exceptIsOk (populateTooltip rows col feats) = true := by
  intro feats
  induction feats with
  | nil => intro h; rfl
  | cons a as ih =>
    intro h
    have ha := h a (List.mem_cons_self a as)
    obtain ⟨r, hr, hid⟩ := List.any_eq_true.mp ha
    have hfind : ∃ r2, rows.find? (fun q => q.id == a.featId) = some r2 := by
      cases hfq : rows.find? (fun q => q.id == a.featId) with
      | some r2 => exact ⟨r2, rfl⟩
      | none => exact absurd hid (by simpa using List.find?_eq_none.mp hfq r hr)
    obtain ⟨r2, hf2⟩ := hfind
    have hattr : ∃ v, rowAttr r2 col = some v := by
      rcases hcol with hc | hc <;> subst hc
      · exact ⟨_, rowAttr_emKey r2⟩
      · exact ⟨_, rowAttr_hdKey r2⟩
    obtain ⟨v, hv⟩ := hattr
    have hloc : locColumn rows a.featId col = Except.ok v := by
      simp [locColumn, hf2, hv]
    unfold populateTooltip
    rw [hloc]
    dsimp only
    cases hrec : populateTooltip rows col as with
    | error e =>
      have hrec2 := ih (fun s hs => h s (List.mem_cons_of_mem a hs))
      rw [hrec] at hrec2
      cases hrec2
    | ok rest2 => rfl

/-- Positional coverage of the id column makes the whole per-file body
succeed. -/
theorem processFile_isOk_of_cover (f : DataFile) (y : Int) (fst : Bool)
    (b : Option Colormap) (hcov : idsCoverPositions f.rows = true) :
    exceptIsOk (processFile f y fst b) = true := by
  have hfeat : ∀ s ∈ gdfFeatures f.rows, f.rows.any (fun r => r.id == s.featId) = true := by
    intro s hs
    obtain ⟨i, hilt, hieq⟩ := gdfFeatures_featId f.rows s hs
    have := List.all_eq_true.mp hcov i (List.mem_range.mpr hilt)
    rw [hieq]
    simpa using this
  have hem := populateTooltip_isOk f.rows emKey (Or.inl rfl) (gdfFeatures f.rows) hfeat
  have hhd := populateTooltip_isOk f.rows hdKey (Or.inr rfl) (gdfFeatures f.rows) hfeat
  rw [processFile_eq]
  cases hem2 : populateTooltip f.rows emKey (gdfFeatures f.rows) with
  | error e => rw [hem2] at hem; cases hem
  | ok ef =>
    cases hhd2 : populateTooltip f.rows hdKey (gdfFeatures f.rows) with
    | error e => rw [hhd2] at hhd; cases hhd
    | ok hfs => rfl

/-! ## Lock-step of legend display and layer visibility after a toggle -/

/-- Once some event has touched the bound layer, the display of its
legend equals its visibility, whatever the initial show flag was. -/
theorem bindDisplay_lockstep (l : String) (b : Bool) :
    ∀ evs : List LayerEvent, evs.any (eventTouches l) = true →
      (bindColormapDisplay l evs = "block" ↔ layerVisibleAfter l b evs = true) := by
  intro evs
  induction evs using List.reverseRecOn with
  | nil => intro h; cases h
  | append_singleton evs e ihe =>
    intro h
    by_cases ht : eventTouches l e = true
    · cases e with
      | overlayadd n =>
        have hn : n = l := by simpa [eventTouches] using ht
        subst hn
        simp [bindColormapDisplay, layerVisibleAfter, List.foldl_append, bindColormapStep]
      | overlayremove n =>
        have hn : n = l := by simpa [eventTouches] using ht
        subst hn
        simp [bindColormapDisplay, layerVisibleAfter, List.foldl_append, bindColormapStep]
    · have h2 : evs.any (eventTouches l) = true := by
        rcases List.any_eq_true.mp h with ⟨ev, hev, hevt⟩
        rcases List.mem_append.mp hev with hev1 | hev2
        · exact List.any_eq_true.mpr ⟨ev, hev1, hevt⟩
        · rw [List.mem_singleton.mp hev2] at hevt
          exact absurd hevt ht
      have heq1 : bindColormapDisplay l (evs ++ [e]) = bindColormapDisplay l evs := by
        cases e with
        | overlayadd n =>
          have hn : ¬(n = l) := by simpa [eventTouches] using ht
          simp [bindColormapDisplay, List.foldl_append, bindColormapStep, hn]
        | overlayremove n =>
          have hn : ¬(n = l) := by simpa [eventTouches] using ht
          simp [bindColormapDisplay, List.foldl_append, bindColormapStep, hn]
      have heq2 : layerVisibleAfter l b (evs ++ [e]) = layerVisibleAfter l b evs := by
        cases e with
        | overlayadd n =>
          have hn : ¬(n = l) := by simpa [eventTouches] using ht
          simp [layerVisibleAfter, List.foldl_append, hn]
        | overlayremove n =>
          have hn : ¬(n = l) := by simpa [eventTouches] using ht
          simp [layerVisibleAfter, List.foldl_append, hn]
      rw [heq1, heq2]
      exact ihe h2

/-! ## Document-level forms of the observers -/

/-- Layer names of a full document are those of the loop output. -/
theorem elemsChoroNames_doc (elems : List Element) :
    elemsChoroNames (Element.macroStyle :: elems ++ [Element.layerControl false])
      = elemsChoroNames elems := by
  unfold elemsChoroNames
  rw [choroplethsOf_doc]

/-- Visible tags of a full document are those of the loop output. -/
theorem visTags_doc (elems : List Element) :
    visTags (Element.macroStyle :: elems ++ [Element.layerControl false])
      = visTags elems := by
  unfold visTags
  rw [choroplethsOf_doc]

/-- Tooltip consistency of a full document is that of the loop output. -/
theorem elemsTooltipsOk_doc (elems : List Element) :
    elemsTooltipsOk (Element.macroStyle :: elems ++ [Element.layerControl false])
      = elemsTooltipsOk elems := by
  unfold elemsTooltipsOk
  rw [choroplethsOf_doc]

/-! ## Concrete directories used by the witnesses -/

/-- A one-row attribute table whose id column is the positional index. -/
def demoRow (yr : String) (edoy hdoy : Int) : Row :=
  { id := 0, emergence_doy := edoy, heading_doy := hdoy,
    emergence_date := yr ++ "-04-10", heading_date := yr ++ "-05-30" }

/-- A directory with files for the years 2016, 2018 and 2019. -/
def demoFiles : List DataFile :=
  [{ name := "ww_ch_2016.geojson", rows := [demoRow ("2016") 95 160] },
   { name := "ww_ch_2018.geojson", rows := [demoRow ("2018") 100 150] },
   { name := "ww_ch_2019.geojson", rows := [demoRow ("2019") 98 155] }]

/-- A directory with a single 2018 file. -/
def sampleFile : DataFile :=
  { name := "ww_ch_2018.geojson", rows := [demoRow ("2018") 100 150] }

/-- A glob-matched file whose stem has no trailing numeric token. -/
def badYearFile : DataFile := { name := "pheno_final.geojson", rows := [] }

/-- A well-formed file (unique ids, all columns) whose single id-column
value is not the positional index 0. -/
def badIdFile : DataFile :=
  { name := "ww_ch_2018.geojson",
    rows := [{ id := 7, emergence_doy := 100, heading_doy := 150,
               emergence_date := "2018-04-10", heading_date := "2018-05-30" }] }

/-- A file whose extension the glob pattern does not match, with a stem
that would not parse either. -/
def plainTextFile : DataFile := { name := "notes.txt", rows := [] }

/-- Fallback document for reading a successful result. -/
def fallbackDoc : MapDoc :=
  { location := (0, 0), zoom_start := 0, tiles := "", attr := "", children := [] }

/-- The document of a successful run, fallback otherwise. -/
def okDocOr : Except PyError MapDoc → MapDoc
  | Except.ok d => d
  | Except.error _ => fallbackDoc

/-- The document of the demo run over the selected years 2018, 2019. -/
def demoDoc : MapDoc := okDocOr (generate_folium_map demoFiles [2018, 2019])

/-- The document of the demo run with the default selected years. -/
def demoDoc920 : MapDoc := okDocOr (generate_folium_map demoFiles [2018, 2019, 2020])

/-- The document of the single-file run. -/
def sampleDoc : MapDoc := okDocOr (generate_folium_map [sampleFile] [2018])

/-- The document of the demo run with no selected years. -/
def emptySelDoc : MapDoc := okDocOr (generate_folium_map demoFiles [])

/-! ## Claims -/

/-- C1: for every directory listing and selected-years list, under a
successful run the choropleth layers of the output are exactly two — one
emergence and one heading layer, named by the year — for each
glob-considered file whose parsed year is in the selected list, in
listing order; a considered file contributes layers if and only if its
year is selected, and no layer stems from a file with an unselected
year. -/
theorem C1_layers_iff_selected_years (files : List DataFile) (selected : List Int)
    (doc : MapDoc) (h : generate_folium_map files selected = Except.ok doc) :
    elemsChoroNames doc.children = (processedFiles files selected).flatMap
      (fun g => [emName (fileYearD g), hdName (fileYearD g)]) := by
  obtain ⟨elems, hloop, hch⟩ := generate_ok_elems files selected doc h
  obtain ⟨hA, _, _, _⟩ := genLoop_ok_spec selected files 0 none elems hloop
  rw [hch, elemsChoroNames_doc]
  exact hA

/-- C1 witness: the directory with years 2016, 2018 and 2019 under the
selection 2018, 2019 yields exactly the four layers of the two selected
years and nothing of 2016. -/
theorem C1_layers_iff_selected_years_witness :
    generate_folium_map demoFiles [2018, 2019] = Except.ok demoDoc
    ∧ elemsChoroNames demoDoc.children = (processedFiles demoFiles [2018, 2019]).flatMap
        (fun g => [emName (fileYearD g), hdName (fileYearD g)])
    ∧ elemsChoroNames demoDoc.children
        = ["2018 Auflaufen", "2018 Ährenschieben", "2019 Auflaufen", "2019 Ährenschieben"] :=
  ⟨rfl, C1_layers_iff_selected_years demoFiles [2018, 2019] demoDoc rfl, by rfl⟩

/-- C2: in every successful run, every emergence layer exposes exactly
the human-readable emergence date field and every heading layer exactly
the human-readable heading date field, each present on every feature as
a string — the two bindings are never swapped. -/
theorem C2_tooltip_fields_never_swapped (files : List DataFile) (selected : List Int)
    (doc : MapDoc) (h : generate_folium_map files selected = Except.ok doc) :
    elemsTooltipsOk doc.children = true := by
  obtain ⟨elems, hloop, hch⟩ := generate_ok_elems files selected doc h
  obtain ⟨_, _, hC, _⟩ := genLoop_ok_spec selected files 0 none elems hloop
  rw [hch, elemsTooltipsOk_doc]
  exact hC

/-- C2 witness: the demo run satisfies the tooltip consistency check. -/
theorem C2_tooltip_fields_never_swapped_witness :
    generate_folium_map demoFiles [2018, 2019] = Except.ok demoDoc
    ∧ elemsTooltipsOk demoDoc.children = true :=
  ⟨rfl, C2_tooltip_fields_never_swapped demoFiles [2018, 2019] demoDoc rfl⟩

/-- C3: whenever at least one considered file has a selected year, the
initially visible layers of a successful run are exactly one: the
emergence layer of the first processed file; every heading layer and
every later emergence layer starts hidden. -/
theorem C3_single_initial_visible_layer (files : List DataFile) (selected : List Int)
    (doc : MapDoc) (f : DataFile) (rest : List DataFile)
    (h : generate_folium_map files selected = Except.ok doc)
    (hp : processedFiles files selected = f :: rest) :
    visTags doc.children = [(emName (fileYearD f), emCol)] := by
  obtain ⟨elems, hloop, hch⟩ := generate_ok_elems files selected doc h
  obtain ⟨_, hB, _, _⟩ := genLoop_ok_spec selected files 0 none elems hloop
  rw [hch, visTags_doc, hB, if_pos rfl, hp]
  rfl

/-- C3 witness: in the demo run the 2018 emergence layer is the single
initially visible layer. -/
theorem C3_single_initial_visible_layer_witness :
    generate_folium_map demoFiles [2018, 2019] = Except.ok demoDoc
    ∧ processedFiles demoFiles [2018, 2019]
        = [{ name := "ww_ch_2018.geojson", rows := [demoRow ("2018") 100 150] },
           { name := "ww_ch_2019.geojson", rows := [demoRow ("2019") 98 155] }]
    ∧ visTags demoDoc.children = [("2018 Auflaufen", emCol)] :=
  ⟨rfl, by rfl,
   C3_single_initial_visible_layer demoFiles [2018, 2019] demoDoc
     { name := "ww_ch_2018.geojson", rows := [demoRow ("2018") 100 150] }
     [{ name := "ww_ch_2019.geojson", rows := [demoRow ("2019") 98 155] }] rfl (by rfl)⟩

/-- C4: a considered file whose stem has no trailing numeric token makes
the whole run fail — the ValueError of int() terminates it — rather than
being silently skipped. -/
theorem C4_malformed_filename_fails (files : List DataFile) (selected : List Int)
    (f : DataFile) (e : PyError)
    (hmem : f ∈ files) (hglob : pyGlobMatch f.name = true)
    (hparse : parseYear (pyStem f.name) = Except.error e) :
    exceptIsOk (generate_folium_map files selected) = false := by
  have hbad := genLoop_error_of_badfile selected files 0 none f e hmem hglob hparse
  unfold generate_folium_map
  cases hg : genLoop selected files 0 none with
  | error e2 => rfl
  | ok elems =>
    rw [hg] at hbad
    cases hbad

/-- C4 witness: the file pheno_final.geojson is considered, its stem has
no trailing numeric token, and the run over it fails. -/
theorem C4_malformed_filename_fails_witness :
    badYearFile ∈ [badYearFile]
    ∧ pyGlobMatch badYearFile.name = true
    ∧ parseYear (pyStem badYearFile.name)
        = Except.error (.valueError ("invalid literal for int() with base 10: final"))
    ∧ exceptIsOk (generate_folium_map [badYearFile] [2016]) = false :=
  ⟨List.mem_singleton.mpr rfl, rfl, rfl,
   C4_malformed_filename_fails [badYearFile] [2016] badYearFile
     (.valueError ("invalid literal for int() with base 10: final"))
     (List.mem_singleton.mpr rfl) rfl rfl⟩

/-- C5 counterexample: the claim that in the initial state a legend is
displayed only if its layer starts visible fails on the single-file run:
the heading layer starts hidden, yet the load-time statement of its
BindColormap sets its legend display to block unconditionally, so the
initial lock-step check evaluates to false. -/
theorem C5_initial_legend_counterexample :
    generate_folium_map [sampleFile] [2018] = Except.ok sampleDoc
    ∧ (docChoropleths sampleDoc).any
        (fun c => (c.name == hdName 2018) && (c.«show» == false)) = true
    ∧ bindColormapInitDisplay = "block"
    ∧ legendInitLockstep sampleDoc = false :=
  ⟨rfl, by rfl, rfl, by rfl⟩

/-- C5 amended: the legend display of a bound layer initializes to block
regardless of the layer visibility, so legends of initially hidden
layers start shown; from the first overlay add or remove event touching
the layer onwards, the legend display equals the layer visibility — in
lock-step with the visibility toggle, whatever the initial show flag
was. -/
theorem C5_legend_lockstep_amended (files : List DataFile) (selected : List Int)
    (doc : MapDoc) (l : String) (cm : Colormap) (b : Bool) (evs : List LayerEvent)
    (h : generate_folium_map files selected = Except.ok doc)
    (hmem : Element.bindColormap l cm ∈ doc.children)
    (htouch : evs.any (eventTouches l) = true) :
    bindColormapInitDisplay = "block"
    ∧ (bindColormapDisplay l evs = "block" ↔ layerVisibleAfter l b evs = true) :=
  ⟨rfl, bindDisplay_lockstep l b evs htouch⟩

/-- C5 amended witness: after toggling the heading layer of the
single-file run on, its legend display agrees with its visibility. -/
theorem C5_legend_lockstep_amended_witness :
    generate_folium_map [sampleFile] [2018] = Except.ok sampleDoc
    ∧ Element.bindColormap (hdName 2018) { caption := hdLegend 2018 } ∈ sampleDoc.children
    ∧ [LayerEvent.overlayadd (hdName 2018)].any (eventTouches (hdName 2018)) = true
    ∧ (bindColormapInitDisplay = "block"
       ∧ (bindColormapDisplay (hdName 2018) [LayerEvent.overlayadd (hdName 2018)] = "block"
          ↔ layerVisibleAfter (hdName 2018) false [LayerEvent.overlayadd (hdName 2018)] = true)) :=
  ⟨rfl, by decide, by decide,
   C5_legend_lockstep_amended [sampleFile] [2018] sampleDoc (hdName 2018)
     { caption := hdLegend 2018 } false [LayerEvent.overlayadd (hdName 2018)]
     rfl (by decide) (by decide)⟩

/-- C6: in every successful run, every choropleth layer of the output
has no colormap child left — the auto-generated colormap was detached —
and is immediately followed by that same colormap (the one captioned
with the layer legend) re-attached as a sibling of the layer, and by a
BindColormap pairing exactly that layer with exactly that colormap; the
run succeeding means the detach loop completed without error for every
layer. -/
theorem C6_colormap_detach_reattach (files : List DataFile) (selected : List Int)
    (doc : MapDoc) (h : generate_folium_map files selected = Except.ok doc) :
    bindingsOk doc.children = true := by
  obtain ⟨elems, hloop, hch⟩ := generate_ok_elems files selected doc h
  obtain ⟨_, _, _, hD⟩ := genLoop_ok_spec selected files 0 none elems hloop
  rw [hch]
  exact bindingsOk_doc elems hD

/-- C6 witness: the demo run passes the detach-and-pair check. -/
theorem C6_colormap_detach_reattach_witness :
    generate_folium_map demoFiles [2018, 2019] = Except.ok demoDoc
    ∧ bindingsOk demoDoc.children = true :=
  ⟨rfl, C6_colormap_detach_reattach demoFiles [2018, 2019] demoDoc rfl⟩

/-- C7: with an empty selected-years list a successful run produces the
base map with only the custom styled overlay and the layer control as
children: zero choropleth layers, zero colormaps, zero BindColormap
elements and zero tooltip bindings. -/
theorem C7_empty_selection (files : List DataFile) (doc : MapDoc)
    (h : generate_folium_map files [] = Except.ok doc) :
    doc.children = [Element.macroStyle, Element.layerControl false]
    ∧ choroplethCount doc = 0 ∧ colormapCount doc = 0
    ∧ bindCount doc = 0 ∧ tooltipCount doc = 0 := by
  obtain ⟨elems, hloop, hch⟩ := generate_ok_elems files [] doc h
  have he := genLoop_empty_selected files 0 none elems hloop
  subst he
  have hch2 : doc.children = [Element.macroStyle, Element.layerControl false] := by
    simpa using hch
  refine ⟨hch2, ?_, ?_, ?_, ?_⟩
  · simp [choroplethCount, docChoropleths, hch2, choroplethsOf]
  · simp [colormapCount, hch2]
  · simp [bindCount, hch2]
  · simp [tooltipCount, docChoropleths, hch2, choroplethsOf]

/-- C7 witness: the demo directory with empty selection yields only the
overlay and the control. -/
theorem C7_empty_selection_witness :
    generate_folium_map demoFiles [] = Except.ok emptySelDoc
    ∧ (emptySelDoc.children = [Element.macroStyle, Element.layerControl false]
       ∧ choroplethCount emptySelDoc = 0 ∧ colormapCount emptySelDoc = 0
       ∧ bindCount emptySelDoc = 0 ∧ tooltipCount emptySelDoc = 0) :=
  ⟨rfl, C7_empty_selection demoFiles emptySelDoc rfl⟩

/-- Positional coverage expressed on the embedded features. -/
theorem cover_featIds (f : DataFile) (hcov : idsCoverPositions f.rows = true) :
    ∀ s ∈ gdfFeatures f.rows, f.rows.any (fun r => r.id == s.featId) = true := by
  intro s hs
  obtain ⟨i, hilt, hieq⟩ := gdfFeatures_featId f.rows s hs
  have hall := List.all_eq_true.mp hcov i (List.mem_range.mpr hilt)
  rw [hieq]
  simpa using hall

/-- C8 counterexample: a well-formed file — unique identifier column,
all expected attribute columns present — whose identifier value 7 is not
the positional index 0 makes the tooltip lookup raise KeyError and the
run fail, refuting the claim that the lookup succeeds for every
well-formed file: the geometry index folium emits is the positional
index, not the identifier column. -/
theorem C8_wellformed_lookup_counterexample :
    rowIdsUnique badIdFile.rows = true
    ∧ generate_folium_map [badIdFile] [2018] = Except.error (.keyError 0) :=
  ⟨by decide, by rfl⟩

/-- C8 amended: the tooltip lookup succeeds for every feature of a file
if and only if guarded by positional coverage: whenever every positional
index occurs in the identifier column — in particular when identifiers
are assigned positionally — both tooltip population loops and the whole
per-file body succeed. -/
theorem C8_lookup_succeeds_under_cover_amended (f : DataFile) (y : Int) (fst : Bool)
    (b : Option Colormap) (hcov : idsCoverPositions f.rows = true) :
    exceptIsOk (populateTooltip f.rows emKey (gdfFeatures f.rows)) = true
    ∧ exceptIsOk (populateTooltip f.rows hdKey (gdfFeatures f.rows)) = true
    ∧ exceptIsOk (processFile f y fst b) = true :=
  ⟨populateTooltip_isOk f.rows emKey (Or.inl rfl) (gdfFeatures f.rows) (cover_featIds f hcov),
   populateTooltip_isOk f.rows hdKey (Or.inr rfl) (gdfFeatures f.rows) (cover_featIds f hcov),
   processFile_isOk_of_cover f y fst b hcov⟩

/-- C8 amended witness: the single-file demo run has a positionally
covered identifier column and all its lookups succeed. -/
theorem C8_lookup_succeeds_under_cover_amended_witness :
    idsCoverPositions sampleFile.rows = true
    ∧ (exceptIsOk (populateTooltip sampleFile.rows emKey (gdfFeatures sampleFile.rows)) = true
       ∧ exceptIsOk (populateTooltip sampleFile.rows hdKey (gdfFeatures sampleFile.rows)) = true
       ∧ exceptIsOk (processFile sampleFile 2018 true none) = true) :=
  ⟨by decide, C8_lookup_succeeds_under_cover_amended sampleFile 2018 true none (by decide)⟩

/-- C9: a successful run of the script writes exactly one file, the HTML
document at the joined output path; the entry point creates the output
directory first with exist_ok and performs no other filesystem write. -/
theorem C9_single_write_effect (files : List DataFile) (doc : MapDoc)
    (output_dir output_name : String)
    (h : generate_folium_map files [2018, 2019, 2020] = Except.ok doc) :
    generateWriteEffects files [2018, 2019, 2020] output_dir output_name
        = [FsEffect.writeFile (pyJoinPath output_dir output_name)]
    ∧ scriptMain files = [FsEffect.mkdirExistOk ("."), FsEffect.writeFile ("index.html")]
    ∧ (scriptMain files).filter isFileWrite = [FsEffect.writeFile ("index.html")] := by
  have h2 : generateWriteEffects files [2018, 2019, 2020] (".") ("index.html")
      = [FsEffect.writeFile ("index.html")] := by
    unfold generateWriteEffects
    rw [h]
    rfl
  refine ⟨?_, ?_, ?_⟩
  · unfold generateWriteEffects
    rw [h]
  · unfold scriptMain
    rw [h2]
  · unfold scriptMain
    rw [h2]
    rfl

/-- C9 witness: the demo directory under the default selection writes
exactly the single HTML file. -/
theorem C9_single_write_effect_witness :
    generate_folium_map demoFiles [2018, 2019, 2020] = Except.ok demoDoc920
    ∧ (generateWriteEffects demoFiles [2018, 2019, 2020] ("out") ("map.html")
        = [FsEffect.writeFile ("out/map.html")]
       ∧ scriptMain demoFiles = [FsEffect.mkdirExistOk ("."), FsEffect.writeFile ("index.html")]
       ∧ (scriptMain demoFiles).filter isFileWrite = [FsEffect.writeFile ("index.html")]) :=
  ⟨rfl, by
    have hw := C9_single_write_effect demoFiles demoDoc920 ("out") ("map.html") rfl
    simpa [pyJoinPath] using hw⟩

/-- C10: a file whose name the glob pattern does not match is invisible
to the run — it is neither year-parsed nor able to raise, and removing
it from the listing leaves the result unchanged, even when its stem has
no trailing numeric token. -/
theorem C10_nongeojson_ignored (pre post : List DataFile) (f : DataFile)
    (selected : List Int) (h : pyGlobMatch f.name = false) :
    generate_folium_map (pre ++ f :: post) selected
      = generate_folium_map (pre ++ post) selected := by
  unfold generate_folium_map
  rw [genLoop_ignores_nonmatching selected f h pre post 0 none]

/-- C10 witness: notes.txt, whose stem would not even parse, is ignored:
the run over it equals the run over the empty directory. -/
theorem C10_nongeojson_ignored_witness :
    pyGlobMatch plainTextFile.name = false
    ∧ generate_folium_map [plainTextFile] [2018] = generate_folium_map [] [2018] :=
  ⟨rfl, C10_nongeojson_ignored [] [] plainTextFile [2018] rfl⟩
